import Mathlib

/-!
Verification of the `cached-struct` crate (`src/lib.rs`): a file-backed,
staleness-aware value cache `Cached<T>`.

Shallow embedding conventions:
* `SystemTime` is modelled as `Nat`; `SystemTime::UNIX_EPOCH` is `0` and
  `<` on timestamps is `Nat.lt` (Rust compares `SystemTime` totally).
* The codec trait `Cache` (methods `save`/`load`) is an explicit record:
  `save` (encoding) is modelled as a total function `α → β` into an abstract
  content type `β`; `load` (decoding) is `β → Option α`, `none` meaning the
  codec signals a decode failure (`io::Error` of kind `InvalidData` in the
  example impl).
* The filesystem visible to the one path the handle owns is a state `FS β`:
  the optional file `(mtime, contents)`, plus fault-injection flags that say
  which syscall of the next operation fails (`fs::metadata`/`modified`,
  `File::open`, reading during `T::load`, `File::create`, writing during
  `T::save`, and the post-write `file.metadata()?.modified()?` query).
* Every operation additionally records the trace of filesystem events it
  performed (`statMeta`, `openRead`, `createWrite`), so that "does not open
  or re-read the file" is a statement about the trace.
-/

set_option autoImplicit false

namespace CachedStruct

/-- Error kinds of the spec: `io::Error`s from filesystem calls are `IOError`;
a failure signalled by the codec's `load` is `DecodeError`. In the Rust code
both are values of `io::Error`; the model separates them by origin. -/
inductive CError where
  | IOError
  | DecodeError
deriving DecidableEq, Repr

/-- Filesystem events an operation can perform, used to observe whether the
backing file was opened and read (`File::open` + `T::load`) or created for
writing (`File::create`). -/
inductive FSEvent where
  | statMeta
  | openRead
  | createWrite
deriving DecidableEq, Repr

/-- The codec trait `Cache` of `lib.rs` (lines 86-91): `save` encodes the
value (modelled as a total function into the content type `β`), `load`
decodes contents, `none` signalling a decode failure. -/
structure Cache (α β : Type) where
  save : α → β
  load : β → Option α

/-- State of the single backing file and fault injection for the next
syscalls. `file` is `some (mtime, contents)` when the file exists.
`metaFail` makes `fs::metadata`/`modified()` fail with a non-`NotFound`
error; `openFail` makes `File::open` fail; `readFail` makes reading during
`T::load` fail with an I/O (not decode) error; `createFail` makes
`File::create` fail; `writeFail` makes writing during `T::save` fail after
the file was already truncated, leaving `tornContents` on disk;
`postMetaFail` makes the post-write `file.metadata()?.modified()?` query
fail. `writeMtime` is the modification time the filesystem stamps on a
file written by `File::create` + `T::save`. -/
structure FS (β : Type) where
  file : Option (Nat × β)
  metaFail : Bool
  openFail : Bool
  readFail : Bool
  createFail : Bool
  writeFail : Bool
  postMetaFail : Bool
  writeMtime : Nat
  tornContents : β
deriving DecidableEq, Repr

/-- The handle `Cached<T>` of `lib.rs` (lines 14-18): `last_modified`
(the `RefCell<SystemTime>`) and `inner` (the `RefCell<T>`). The path is
fixed: the `FS` state is the file at that path. -/
structure Cached (α : Type) where
  last_modified : Nat
  inner : α
deriving DecidableEq, Repr

/-- Result of one operation: its `Result` value, the handle state after it,
the filesystem state after it, and the trace of filesystem events. -/
structure Outcome (σ α β : Type) where
  res : Except CError σ
  c : Cached α
  fs : FS β
  events : List FSEvent
deriving Repr

variable {α β ρ : Type}

/-- The private `check_load` of `lib.rs` (lines 38-55): query metadata
(`NotFound` is success with no state change, any other failure propagates);
if the file's mtime is strictly newer than `last_modified`, open the file,
decode it, replace `inner` with the decoded value and set `last_modified`
to the file's mtime; otherwise succeed with no change. On any failure the
handle is unchanged (`last_modified` is assigned only after `T::load`
succeeded). -/
def check_load (cdc : Cache α β) (c : Cached α) (fs : FS β) : Outcome Unit α β :=
  if fs.metaFail then ⟨.error .IOError, c, fs, [.statMeta]⟩
  else
    match fs.file with
    | none => ⟨.ok (), c, fs, [.statMeta]⟩
    | some (fileLastModified, contents) =>
      if c.last_modified < fileLastModified then
        if fs.openFail then ⟨.error .IOError, c, fs, [.statMeta, .openRead]⟩
        else if fs.readFail then ⟨.error .IOError, c, fs, [.statMeta, .openRead]⟩
        else
          match cdc.load contents with
          | none => ⟨.error .DecodeError, c, fs, [.statMeta, .openRead]⟩
          | some v => ⟨.ok (), ⟨fileLastModified, v⟩, fs, [.statMeta, .openRead]⟩
      else ⟨.ok (), c, fs, [.statMeta]⟩

/-- The private `save` of `lib.rs` (lines 56-62): `File::create` (truncates),
encode `inner` into the file, then set `last_modified` to the mtime queried
from the just-written file. On `create` failure the file is untouched; on a
write failure after `create` the file holds torn contents; in every failure
case the handle (`inner` and `last_modified`) is unchanged. -/
def save (cdc : Cache α β) (c : Cached α) (fs : FS β) : Outcome Unit α β :=
  if fs.createFail then ⟨.error .IOError, c, fs, [.createWrite]⟩
  else if fs.writeFail then
    ⟨.error .IOError, c,
      { fs with file := some (fs.writeMtime, fs.tornContents) }, [.createWrite]⟩
  else
    let fs' := { fs with file := some (fs.writeMtime, cdc.save c.inner) }
    if fs.postMetaFail then ⟨.error .IOError, c, fs', [.createWrite]⟩
    else ⟨.ok (), ⟨fs.writeMtime, c.inner⟩, fs', [.createWrite]⟩

/-- The handle value `new_with` builds before its initial `check_load`
(`lib.rs` lines 31-35): `last_modified` is `SystemTime::UNIX_EPOCH`
(timestamp `0` in the model) and `inner` is the default value. -/
def initHandle (d : α) : Cached α := ⟨0, d⟩

/-- The constructor `new_with` of `lib.rs` (lines 30-37): build the handle
with `last_modified = UNIX_EPOCH` and the default value, then run
`check_load`; return the handle on success and the error otherwise
(together with the event trace of the initial `check_load`). -/
def new_with (cdc : Cache α β) (d : α) (fs : FS β) :
    Except CError (Cached α) × List FSEvent :=
  let o := check_load cdc (initHandle d) fs
  match o.res with
  | .ok _ => (.ok o.c, o.events)
  | .error e => (.error e, o.events)

/-- The method `get` of `lib.rs` (lines 64-67): `check_load`, then a
borrowed view of `inner` (modelled as returning the value). -/
def get (cdc : Cache α β) (c : Cached α) (fs : FS β) : Outcome α α β :=
  let o := check_load cdc c fs
  match o.res with
  | .error e => ⟨.error e, o.c, o.fs, o.events⟩
  | .ok _ => ⟨.ok o.c.inner, o.c, o.fs, o.events⟩

/-- The method `do_mut` of `lib.rs` (lines 72-77): `check_load`, apply `f`
to `inner` in place (`f : α → α × ρ` returns the new value and `f`'s result
`r`), then `save`; return `r` on success and the error of the failing step
otherwise. -/
def do_mut (cdc : Cache α β) (c : Cached α) (fs : FS β) (f : α → α × ρ) :
    Outcome ρ α β :=
  let o := check_load cdc c fs
  match o.res with
  | .error e => ⟨.error e, o.c, o.fs, o.events⟩
  | .ok _ =>
    let p := f o.c.inner
    let c' : Cached α := ⟨o.c.last_modified, p.1⟩
    let s := save cdc c' o.fs
    match s.res with
    | .error e => ⟨.error e, s.c, s.fs, o.events ++ s.events⟩
    | .ok _ => ⟨.ok p.2, s.c, s.fs, o.events ++ s.events⟩

/-- The method `into_inner` of `lib.rs` (lines 79-82): destructure the
handle and return the inner value; no filesystem access. -/
def into_inner (c : Cached α) : α := c.inner

/-- Effect on the filesystem of a `Cached` handle's scope ending without
`into_inner` (the handle being dropped). `lib.rs` defines no `Drop`
implementation for `Cached` — indeed `into_inner` (line 80) destructures
`Cached` by pattern, which Rust rejects for types with a `Drop` impl — so
dropping runs only the field destructors of `RefCell<SystemTime>`,
`Box<Path>` and `RefCell<T>`: no filesystem operation is performed and no
event is emitted. -/
def drop_effect (_c : Cached α) (fs : FS β) : FS β × List FSEvent := (fs, [])

/-- Identity codec on `Nat` used for concrete witnesses: decoding always
succeeds and round-trips. -/
def natCache : Cache Nat Nat := ⟨fun n => n, fun n => some n⟩

/-- Codec on `Nat` whose `load` always fails, modelling a backing file whose
contents the codec cannot decode. -/
def badCache : Cache Nat Nat := ⟨fun n => n, fun _ => none⟩

/-- Fault-free filesystem with no backing file; a written file gets
modification time 5. -/
def fsEmpty : FS Nat := ⟨none, false, false, false, false, false, false, 5, 0⟩

/-- Fault-free filesystem whose backing file has modification time 3 and
contents 42; a written file gets modification time 5. -/
def fsWith42 : FS Nat :=
  ⟨some (3, 42), false, false, false, false, false, false, 5, 0⟩

/-- Fault-free filesystem whose backing file has modification time 0 (the
Unix epoch, e.g. a file stamped `touch -d @0`) and contents 42. -/
def fsEpochFile : FS Nat :=
  ⟨some (0, 42), false, false, false, false, false, false, 5, 0⟩

/-- Filesystem like `fsWith42` but whose next `File::open` fails. -/
def fsOpenFail : FS Nat :=
  ⟨some (3, 42), false, true, false, false, false, false, 5, 0⟩

/-- Filesystem like `fsWith42` but whose next read during `T::load` fails. -/
def fsReadFail : FS Nat :=
  ⟨some (3, 42), false, false, true, false, false, false, 5, 0⟩

/-- Filesystem with no backing file whose next `File::create` fails. -/
def fsCreateFail : FS Nat :=
  ⟨none, false, false, false, true, false, false, 5, 0⟩

/-- Filesystem whose next `fs::metadata` query fails with a non-`NotFound`
error. -/
def fsMetaFail : FS Nat :=
  ⟨none, true, false, false, false, false, false, 5, 0⟩

/-- Filesystem with no backing file where create and write succeed but the
post-write `file.metadata()?.modified()?` query fails. -/
def fsPostMetaFail : FS Nat :=
  ⟨none, false, false, false, false, false, true, 5, 0⟩

/-! Helper lemmas shared by several claims. -/

/-- The staleness check never writes: `check_load` leaves the filesystem
state unchanged. -/
theorem check_load_fs_eq (cdc : Cache α β) (c : Cached α) (fs : FS β) :
    (check_load cdc c fs).fs = fs := by
  unfold check_load
  repeat first | rfl | split

/-- Case description of `check_load`: it either succeeds, or it leaves the
handle unchanged (`last_modified` and `inner` are assigned only after every
fallible step succeeded). -/
theorem check_load_ok_or_c_eq (cdc : Cache α β) (c : Cached α) (fs : FS β) :
    (check_load cdc c fs).res = .ok () ∨ (check_load cdc c fs).c = c := by
  unfold check_load
  repeat first | (left; rfl) | (right; rfl) | split

/-- On any failure of `check_load` the handle is unchanged. -/
theorem check_load_err_c (cdc : Cache α β) (c : Cached α) (fs : FS β)
    (e : CError) (herr : (check_load cdc c fs).res = .error e) :
    (check_load cdc c fs).c = c := by
  rcases check_load_ok_or_c_eq cdc c fs with h | h
  · rw [herr] at h
    exact absurd h (by simp)
  · exact h

/-- Case description of `save`: it either succeeds, or it fails with an I/O
error and leaves the handle (both `inner` and `last_modified`) unchanged. -/
theorem save_ok_or_err (cdc : Cache α β) (c : Cached α) (fs : FS β) :
    (save cdc c fs).res = .ok () ∨
      ((save cdc c fs).res = .error .IOError ∧ (save cdc c fs).c = c) := by
  unfold save
  repeat first | (left; rfl) | (right; exact ⟨rfl, rfl⟩) | split

/-- On any failure of `save` the error is an I/O error and the handle is
unchanged. -/
theorem save_err (cdc : Cache α β) (c : Cached α) (fs : FS β)
    (e : CError) (herr : (save cdc c fs).res = .error e) :
    e = .IOError ∧ (save cdc c fs).c = c := by
  rcases save_ok_or_err cdc c fs with h | ⟨h1, h2⟩
  · rw [herr] at h
    exact absurd h (by simp)
  · rw [herr] at h1
    exact ⟨(Except.error.injEq _ _).mp h1, h2⟩

/-! Claim C1. -/

/-- C1, counterexample. The claim says that when a `Cached` handle's scope
ends without `into_inner`, persist is invoked automatically. In the code it
is not: constructing a handle over an absent backing file succeeds, and
dropping the handle performs no filesystem event and leaves the backing
file absent — had persist run, a `createWrite` event would have occurred
and the file would exist. -/
theorem C1_drop_counterexample :
    (new_with natCache 7 fsEmpty).1 = .ok (initHandle 7) ∧
    drop_effect (initHandle 7) fsEmpty = (fsEmpty, []) ∧
    (drop_effect (initHandle 7) fsEmpty).1.file = none ∧
    FSEvent.createWrite ∉ (drop_effect (initHandle 7) fsEmpty).2 := by
  refine ⟨rfl, rfl, rfl, ?_⟩
  decide

/-- C1, amended: when a `Cached` handle's scope ends without `into_inner`
having been called, no persist is invoked at all — `Cached` has no `Drop`
implementation, so scope end performs no filesystem operation and leaves
the backing file unchanged, and `into_inner` likewise returns the inner
value without touching the file. -/
theorem C1_drop_no_persist (c : Cached α) (fs : FS β) :
    drop_effect c fs = (fs, []) ∧ into_inner c = c.inner :=
  ⟨rfl, rfl⟩

/-! Claim C2. -/

/-- C2: the staleness check performed by `get` and `do_mut` (`check_load`)
compares the file's modification time to `last_modified`. If the file's
timestamp is not strictly newer, the operation succeeds with no change to
the in-memory value or `last_modified` and never opens or reads the file
(no `openRead` event). If it is strictly newer (and open/read/decode
succeed), the file is opened, the decoded value replaces the in-memory
value, and `last_modified` is set to the retrieved timestamp. -/
theorem C2_staleness_check (cdc : Cache α β) (c : Cached α) (fs : FS β)
    (t : Nat) (b : β) (hm : fs.metaFail = false) (hf : fs.file = some (t, b)) :
    (t ≤ c.last_modified →
      check_load cdc c fs = ⟨.ok (), c, fs, [.statMeta]⟩ ∧
      get cdc c fs = ⟨.ok c.inner, c, fs, [.statMeta]⟩) ∧
    (c.last_modified < t → fs.openFail = false → fs.readFail = false →
      ∀ v, cdc.load b = some v →
        check_load cdc c fs = ⟨.ok (), ⟨t, v⟩, fs, [.statMeta, .openRead]⟩ ∧
        get cdc c fs = ⟨.ok v, ⟨t, v⟩, fs, [.statMeta, .openRead]⟩) := by
  constructor
  · intro hle
    have hnlt : ¬c.last_modified < t := Nat.not_lt.mpr hle
    unfold get check_load
    rw [hm, hf]
    simp [hnlt]
  · intro hlt hof hrf v hv
    unfold get check_load
    rw [hm, hf]
    simp [hlt, hof, hrf, hv]

/-- C2, witness: with the identity codec and a backing file of timestamp 3
and contents 42, a handle already at timestamp 3 is not re-read, while a
handle at timestamp 0 reloads 42 through `get`. -/
theorem C2_staleness_check_witness :
    (check_load natCache ⟨3, 7⟩ fsWith42 = ⟨.ok (), ⟨3, 7⟩, fsWith42, [.statMeta]⟩ ∧
      get natCache ⟨3, 7⟩ fsWith42 = ⟨.ok 7, ⟨3, 7⟩, fsWith42, [.statMeta]⟩) ∧
    (check_load natCache ⟨0, 7⟩ fsWith42 = ⟨.ok (), ⟨3, 42⟩, fsWith42, [.statMeta, .openRead]⟩ ∧
      get natCache ⟨0, 7⟩ fsWith42 = ⟨.ok 42, ⟨3, 42⟩, fsWith42, [.statMeta, .openRead]⟩) :=
  ⟨(C2_staleness_check natCache ⟨3, 7⟩ fsWith42 3 42 rfl rfl).1 (by decide),
   (C2_staleness_check natCache ⟨0, 7⟩ fsWith42 3 42 rfl rfl).2 (by decide) rfl rfl 42 rfl⟩

/-! Claim C3. -/

/-- C3, counterexample. The claim says the initial `last_known_modified`
guarantees that for every existing backing file the first access attempts a
load. It does not: `last_modified` starts at `SystemTime::UNIX_EPOCH` and
`check_load` loads only when the file's mtime is strictly newer, so an
existing, decodable backing file stamped exactly at the epoch is never
loaded — construction succeeds with the default value 7 (not the file's
42) and no `openRead` event occurs. -/
theorem C3_epoch_counterexample :
    (new_with natCache 7 fsEpochFile).1 = .ok (initHandle 7) ∧
    FSEvent.openRead ∉ (new_with natCache 7 fsEpochFile).2 ∧
    natCache.load 42 = some 42 ∧ (7 : Nat) ≠ 42 := by
  refine ⟨rfl, ?_, rfl, by decide⟩
  decide

/-- C3, amended: `last_known_modified` is initialized to the Unix epoch
(`SystemTime::UNIX_EPOCH`, timestamp 0 in the model), so the first access —
including the load attempt performed by construction itself — attempts a
load of an existing backing file if and only if the file's modification
time is strictly later than the epoch. -/
theorem C3_first_access_load_iff (cdc : Cache α β) (d : α) (fs : FS β)
    (t : Nat) (b : β) (hm : fs.metaFail = false) (hf : fs.file = some (t, b)) :
    (initHandle d).last_modified = 0 ∧
    (FSEvent.openRead ∈ (new_with cdc d fs).2 ↔ 0 < t) := by
  refine ⟨rfl, ?_⟩
  unfold new_with check_load initHandle
  rw [hm, hf]
  by_cases h : (0 : Nat) < t
  · rcases hof : fs.openFail with _ | _ <;> rcases hrf : fs.readFail with _ | _ <;>
      rcases hl : cdc.load b with _ | v <;> simp [h, hl]
  · simp [h]

/-- C3, witness: for a backing file with timestamp 3 the first access does
attempt the load (an `openRead` event occurs). -/
theorem C3_first_access_load_iff_witness :
    (initHandle (7 : Nat)).last_modified = 0 ∧
    (FSEvent.openRead ∈ (new_with natCache 7 fsWith42).2 ↔ 0 < 3) :=
  C3_first_access_load_iff natCache 7 fsWith42 3 42 rfl rfl

/-! Claim C4. -/

/-- C4: during a reload attempt (file strictly newer than `last_modified`),
a decode failure yields `DecodeError` with the old in-memory value (and the
whole handle) left untouched, while a failure to open or to read the file
yields `IOError`, also leaving the handle untouched. -/
theorem C4_failed_reload (cdc : Cache α β) (c : Cached α) (fs : FS β)
    (t : Nat) (b : β) (hm : fs.metaFail = false) (hf : fs.file = some (t, b))
    (hlt : c.last_modified < t) :
    (fs.openFail = false → fs.readFail = false → cdc.load b = none →
      check_load cdc c fs = ⟨.error .DecodeError, c, fs, [.statMeta, .openRead]⟩) ∧
    (fs.openFail = true →
      check_load cdc c fs = ⟨.error .IOError, c, fs, [.statMeta, .openRead]⟩) ∧
    (fs.openFail = false → fs.readFail = true →
      check_load cdc c fs = ⟨.error .IOError, c, fs, [.statMeta, .openRead]⟩) := by
  refine ⟨fun hof hrf hl => ?_, fun hof => ?_, fun hof hrf => ?_⟩ <;>
    (unfold check_load; rw [hm, hf]) <;> simp_all [hlt]

/-- C4, witness: at a file of timestamp 3 seen from a handle at timestamp 0,
the always-failing codec yields `DecodeError`, and injected open/read
failures yield `IOError`, in each case leaving the handle at `⟨0, 7⟩`. -/
theorem C4_failed_reload_witness :
    check_load badCache ⟨0, 7⟩ fsWith42 =
      ⟨.error .DecodeError, ⟨0, 7⟩, fsWith42, [.statMeta, .openRead]⟩ ∧
    check_load natCache ⟨0, 7⟩ fsOpenFail =
      ⟨.error .IOError, ⟨0, 7⟩, fsOpenFail, [.statMeta, .openRead]⟩ ∧
    check_load natCache ⟨0, 7⟩ fsReadFail =
      ⟨.error .IOError, ⟨0, 7⟩, fsReadFail, [.statMeta, .openRead]⟩ :=
  ⟨(C4_failed_reload badCache ⟨0, 7⟩ fsWith42 3 42 rfl rfl (by decide)).1 rfl rfl rfl,
   (C4_failed_reload natCache ⟨0, 7⟩ fsOpenFail 3 42 rfl rfl (by decide)).2.1 rfl,
   (C4_failed_reload natCache ⟨0, 7⟩ fsReadFail 3 42 rfl rfl (by decide)).2.2 rfl rfl⟩

/-! Claim C5. -/

/-- C5: `save` creates/truncates the target file with the encoding of the
current in-memory value and, on success, sets `last_modified` to the
modification time the filesystem stamped on (and reports for) the
just-written file; on any create/write/post-write-metadata failure it
returns an `IOError` and leaves the in-memory value and `last_modified`
unchanged. -/
theorem C5_save (cdc : Cache α β) (c : Cached α) (fs : FS β) :
    (fs.createFail = false → fs.writeFail = false → fs.postMetaFail = false →
      save cdc c fs =
        ⟨.ok (), ⟨fs.writeMtime, c.inner⟩,
          { fs with file := some (fs.writeMtime, cdc.save c.inner) },
          [.createWrite]⟩) ∧
    (∀ e, (save cdc c fs).res = .error e →
      e = .IOError ∧ (save cdc c fs).c = c) := by
  refine ⟨fun hcf hwf hpm => ?_, fun e herr => save_err cdc c fs e herr⟩
  unfold save
  rw [hcf, hwf, hpm]
  simp

/-- C5, witness: on a fault-free filesystem, saving a handle holding 7
writes the file `(5, 7)` and sets `last_modified` to 5; with an injected
`File::create` failure the result is an `IOError` and the handle keeps its
state. -/
theorem C5_save_witness :
    save natCache ⟨0, 7⟩ fsEmpty =
      ⟨.ok (), ⟨5, 7⟩, { fsEmpty with file := some (5, 7) }, [.createWrite]⟩ ∧
    (CError.IOError = CError.IOError ∧ (save natCache ⟨0, 7⟩ fsCreateFail).c = ⟨0, 7⟩) :=
  ⟨(C5_save natCache ⟨0, 7⟩ fsEmpty).1 rfl rfl rfl,
   (C5_save natCache ⟨0, 7⟩ fsCreateFail).2 .IOError rfl⟩

/-! Claim C6. -/

/-- C6, counterexample. The claim says that whenever the persist step of
`do_mut` fails after `f` ran, the mutation is not reflected on disk. It is
when the failing step is the post-write metadata query of `lib.rs:60`:
with `f n = (n + 1, n)` on a handle holding 7 over an empty filesystem
whose post-write `metadata()?.modified()?` fails, `do_mut` returns an
`IOError` and the handle holds the mutated value 8 — but the file was
created and fully written, so the disk holds the encoding of 8 as well:
the mutation is reflected on disk despite the persist error. -/
theorem C6_post_meta_counterexample :
    (do_mut natCache ⟨0, 7⟩ fsPostMetaFail (fun n => (n + 1, n))).res = .error .IOError ∧
    (do_mut natCache ⟨0, 7⟩ fsPostMetaFail (fun n => (n + 1, n))).c = ⟨0, 8⟩ ∧
    (do_mut natCache ⟨0, 7⟩ fsPostMetaFail (fun n => (n + 1, n))).fs.file =
      some (5, natCache.save 8) :=
  ⟨rfl, rfl, rfl⟩

/-- C6, amended: `do_mut` performs the staleness check/load (yielding
handle `c1`), applies `f` to the in-memory value in place, then persists;
on success it returns `f`'s result. If the persist step fails after `f`
ran, the call returns the persist error instead of `f`'s result and the
mutation remains applied in memory; whether it reached the disk depends on
the failing step: a `File::create` failure leaves the disk untouched,
while a failure of the post-write metadata query (after create and write
succeeded) leaves the encoding of the mutated value fully written. -/
theorem C6_do_mut (cdc : Cache α β) (c : Cached α) (fs : FS β) (f : α → α × ρ)
    (c1 : Cached α) (evs : List FSEvent)
    (hcl : check_load cdc c fs = ⟨.ok (), c1, fs, evs⟩) :
    ((save cdc ⟨c1.last_modified, (f c1.inner).1⟩ fs).res = .ok () →
      do_mut cdc c fs f =
        ⟨.ok (f c1.inner).2,
          (save cdc ⟨c1.last_modified, (f c1.inner).1⟩ fs).c,
          (save cdc ⟨c1.last_modified, (f c1.inner).1⟩ fs).fs,
          evs ++ (save cdc ⟨c1.last_modified, (f c1.inner).1⟩ fs).events⟩) ∧
    (∀ e, (save cdc ⟨c1.last_modified, (f c1.inner).1⟩ fs).res = .error e →
      (do_mut cdc c fs f).res = .error e ∧
      (do_mut cdc c fs f).c = ⟨c1.last_modified, (f c1.inner).1⟩ ∧
      (fs.createFail = true → (do_mut cdc c fs f).fs = fs) ∧
      (fs.createFail = false → fs.writeFail = false →
        (do_mut cdc c fs f).fs.file =
          some (fs.writeMtime, cdc.save (f c1.inner).1))) := by
  have key : do_mut cdc c fs f =
      match (save cdc ⟨c1.last_modified, (f c1.inner).1⟩ fs).res with
      | .error e =>
        ⟨.error e, (save cdc ⟨c1.last_modified, (f c1.inner).1⟩ fs).c,
          (save cdc ⟨c1.last_modified, (f c1.inner).1⟩ fs).fs,
          evs ++ (save cdc ⟨c1.last_modified, (f c1.inner).1⟩ fs).events⟩
      | .ok _ =>
        ⟨.ok (f c1.inner).2,
          (save cdc ⟨c1.last_modified, (f c1.inner).1⟩ fs).c,
          (save cdc ⟨c1.last_modified, (f c1.inner).1⟩ fs).fs,
          evs ++ (save cdc ⟨c1.last_modified, (f c1.inner).1⟩ fs).events⟩ := by
    unfold do_mut
    rw [hcl]
  constructor
  · intro hs
    rw [key, hs]
  · intro e he
    rw [key, he]
    refine ⟨rfl, (save_err cdc ⟨c1.last_modified, (f c1.inner).1⟩ fs e he).2,
      fun hcf => ?_, fun hcf hwf => ?_⟩
    · simp [save, hcf]
    · simp only [save, hcf, hwf]
      simp only [Bool.false_eq_true, if_false]
      split <;> rfl

/-- C6, witness: on a fault-free empty filesystem, `do_mut` with
`f n = (n + 1, n)` on a handle holding 7 writes the file `(5, 8)`, sets the
handle to `⟨5, 8⟩` and returns `f`'s result 7; with an injected
`File::create` failure it returns the `IOError`, the handle holds the
mutated value 8, and the filesystem is unchanged; with an injected
post-write metadata failure it returns the `IOError` with the mutated
value's encoding written on disk. -/
theorem C6_do_mut_witness :
    do_mut natCache ⟨0, 7⟩ fsEmpty (fun n => (n + 1, n)) =
      ⟨.ok 7, ⟨5, 8⟩, { fsEmpty with file := some (5, 8) },
        [.statMeta, .createWrite]⟩ ∧
    ((do_mut natCache ⟨0, 7⟩ fsCreateFail (fun n => (n + 1, n))).res = .error .IOError ∧
      (do_mut natCache ⟨0, 7⟩ fsCreateFail (fun n => (n + 1, n))).c = ⟨0, 8⟩ ∧
      (do_mut natCache ⟨0, 7⟩ fsCreateFail (fun n => (n + 1, n))).fs = fsCreateFail) ∧
    ((do_mut natCache ⟨0, 7⟩ fsPostMetaFail (fun n => (n + 1, n))).res = .error .IOError ∧
      (do_mut natCache ⟨0, 7⟩ fsPostMetaFail (fun n => (n + 1, n))).fs.file =
        some (5, natCache.save 8)) := by
  have hfail := (C6_do_mut natCache ⟨0, 7⟩ fsCreateFail (fun n => (n + 1, n)) ⟨0, 7⟩
    [.statMeta] rfl).2 .IOError rfl
  have hpost := (C6_do_mut natCache ⟨0, 7⟩ fsPostMetaFail (fun n => (n + 1, n)) ⟨0, 7⟩
    [.statMeta] rfl).2 .IOError rfl
  exact ⟨(C6_do_mut natCache ⟨0, 7⟩ fsEmpty (fun n => (n + 1, n)) ⟨0, 7⟩
            [.statMeta] rfl).1 rfl,
         ⟨hfail.1, hfail.2.1, hfail.2.2.1 rfl⟩,
         ⟨hpost.1, hpost.2.2.2 rfl rfl⟩⟩

/-! Claim C7. -/

/-- C7: if the backing file is absent, the staleness check succeeds with no
state change, construction succeeds without loading, and a subsequent `get`
returns the default value with no I/O error; file absence is never reported
as an error, while any other metadata-query failure is propagated as an
`IOError`. -/
theorem C7_absent_file (cdc : Cache α β) (c : Cached α) (d : α) (fs : FS β) :
    (fs.metaFail = false → fs.file = none →
      check_load cdc c fs = ⟨.ok (), c, fs, [.statMeta]⟩ ∧
      new_with cdc d fs = (.ok (initHandle d), [.statMeta]) ∧
      get cdc (initHandle d) fs = ⟨.ok d, initHandle d, fs, [.statMeta]⟩) ∧
    (fs.metaFail = true →
      (check_load cdc c fs).res = .error .IOError) := by
  constructor
  · intro hm hf
    refine ⟨?_, ?_, ?_⟩ <;>
      simp [get, new_with, check_load, initHandle, hm, hf]
  · intro hm
    simp [check_load, hm]

/-- C7, witness: over the fault-free empty filesystem, `check_load`, the
constructor and `get` all succeed with the default value 7 and no load;
with an injected metadata failure `check_load` reports an `IOError`. -/
theorem C7_absent_file_witness :
    (check_load natCache ⟨0, 7⟩ fsEmpty = ⟨.ok (), ⟨0, 7⟩, fsEmpty, [.statMeta]⟩ ∧
      new_with natCache 7 fsEmpty = (.ok (initHandle 7), [.statMeta]) ∧
      get natCache (initHandle 7) fsEmpty = ⟨.ok 7, initHandle 7, fsEmpty, [.statMeta]⟩) ∧
    (check_load natCache ⟨0, 7⟩ fsMetaFail).res = .error .IOError := by
  exact ⟨(C7_absent_file natCache ⟨0, 7⟩ 7 fsEmpty).1 rfl rfl,
         (C7_absent_file natCache ⟨0, 7⟩ 7 fsMetaFail).2 rfl⟩

/-! Claim C8. -/

/-- C8, counterexample. The claim quantifies over all paths, but at a path
where a backing file already exists the construction loads that file, so
the round trip reproduces the pre-existing contents, not the default `v`:
with the (round-tripping) identity codec, a pre-existing file `(3, 42)` and
default `v = 7`, construction yields the handle `⟨3, 42⟩`; after persisting
it, a fresh handle (default 0) reads 42, which differs from `v = 7`. -/
theorem C8_roundtrip_counterexample :
    natCache.load (natCache.save 7) = some 7 ∧
    (new_with natCache 7 fsWith42).1 = .ok ⟨3, 42⟩ ∧
    (save natCache ⟨3, 42⟩ fsWith42).res = .ok () ∧
    (new_with natCache 0 (save natCache ⟨3, 42⟩ fsWith42).fs).1 = .ok ⟨5, 42⟩ ∧
    (get natCache ⟨5, 42⟩ (save natCache ⟨3, 42⟩ fsWith42).fs).res = .ok 42 ∧
    (42 : Nat) ≠ 7 :=
  ⟨rfl, rfl, rfl, rfl, rfl, by decide⟩

/-- C8, amended: for every value `v`, at a path with no pre-existing
backing file (and fault-free filesystem), assuming the codec round-trips on
`v` and the filesystem stamps the written file with a modification time
strictly later than the Unix epoch: constructing a handle whose default
produces `v`, persisting it, then constructing a fresh handle at that path
(with any default `d`) yields a handle whose read view equals `v`. -/
theorem C8_roundtrip (cdc : Cache α β) (v d : α) (fs : FS β)
    (hrt : cdc.load (cdc.save v) = some v)
    (hfile : fs.file = none) (hm : fs.metaFail = false)
    (hcf : fs.createFail = false) (hwf : fs.writeFail = false)
    (hpm : fs.postMetaFail = false) (hof : fs.openFail = false)
    (hrf : fs.readFail = false) (ht : 0 < fs.writeMtime) :
    (new_with cdc v fs).1 = .ok (initHandle v) ∧
    (save cdc (initHandle v) fs).res = .ok () ∧
    (new_with cdc d (save cdc (initHandle v) fs).fs).1 =
      .ok ⟨fs.writeMtime, v⟩ ∧
    (get cdc ⟨fs.writeMtime, v⟩ (save cdc (initHandle v) fs).fs).res = .ok v := by
  have hsave : save cdc (initHandle v) fs =
      ⟨.ok (), ⟨fs.writeMtime, v⟩,
        { fs with file := some (fs.writeMtime, cdc.save v) }, [.createWrite]⟩ := by
    simp [save, initHandle, hcf, hwf, hpm]
  refine ⟨?_, ?_, ?_, ?_⟩
  · simp [new_with, check_load, initHandle, hm, hfile]
  · rw [hsave]
  · rw [hsave]
    simp [new_with, check_load, initHandle, hm, ht, hof, hrf, hrt]
  · rw [hsave]
    simp [get, check_load, hm, hof, hrf, hrt]

/-- C8, witness: the amended round trip at `v = 7`, `d = 0` over the
fault-free empty filesystem (written files are stamped 5 > 0). -/
theorem C8_roundtrip_witness :
    (new_with natCache 7 fsEmpty).1 = .ok (initHandle 7) ∧
    (save natCache (initHandle 7) fsEmpty).res = .ok () ∧
    (new_with natCache 0 (save natCache (initHandle 7) fsEmpty).fs).1 =
      .ok ⟨fsEmpty.writeMtime, 7⟩ ∧
    (get natCache ⟨fsEmpty.writeMtime, 7⟩ (save natCache (initHandle 7) fsEmpty).fs).res =
      .ok 7 :=
  C8_roundtrip natCache 7 0 fsEmpty rfl rfl rfl rfl rfl rfl rfl rfl (by decide)

/-! Claim C9. -/

/-- C9, counterexample. The claim says construction fails with
`DecodeError` at every path whose existing file the codec cannot decode.
It does not when the file is stamped exactly at the Unix epoch: the initial
staleness check finds the file's mtime not strictly newer than the initial
`last_modified = UNIX_EPOCH`, skips the load entirely, and construction
succeeds with the default value even though the codec rejects the file's
contents. -/
theorem C9_undecodable_epoch_counterexample :
    badCache.load 42 = none ∧
    (new_with badCache 7 fsEpochFile).1 = .ok (initHandle 7) :=
  ⟨rfl, rfl⟩

/-- C9, amended: for every path at which a file exists whose contents the
codec cannot decode, provided the file's modification time is strictly
later than the Unix epoch, construction performs the staleness check/load
and fails with a `DecodeError`. -/
theorem C9_undecodable_construction (cdc : Cache α β) (d : α) (fs : FS β)
    (t : Nat) (b : β) (hm : fs.metaFail = false) (hf : fs.file = some (t, b))
    (ht : 0 < t) (hof : fs.openFail = false) (hrf : fs.readFail = false)
    (hl : cdc.load b = none) :
    new_with cdc d fs = (.error .DecodeError, [.statMeta, .openRead]) := by
  simp [new_with, check_load, initHandle, hm, hf, ht, hof, hrf, hl]

/-- C9, witness: with the always-failing codec and a backing file of
timestamp 3, construction fails with `DecodeError`. -/
theorem C9_undecodable_construction_witness :
    new_with badCache 7 fsWith42 = (.error .DecodeError, [.statMeta, .openRead]) :=
  C9_undecodable_construction badCache 7 fsWith42 3 42 rfl rfl (by decide) rfl rfl rfl

/-! Claim C10. -/

/-- C10: when a reload attempt fails (the file is strictly newer and the
open, read or decode step errors), the handle — including `last_modified` —
and the filesystem are left unchanged, so the failed version still counts
as strictly newer: the very next `get` (or `do_mut`, which runs the same
`check_load`) against any file at least as new attempts the load again (an
`openRead` event occurs) instead of treating the failed version as already
seen. -/
theorem C10_load_errors_not_cached (cdc : Cache α β) (c : Cached α) (fs : FS β)
    (t : Nat) (b : β) (e : CError)
    (hm : fs.metaFail = false) (hf : fs.file = some (t, b))
    (hlt : c.last_modified < t)
    (herr : (check_load cdc c fs).res = .error e) :
    (check_load cdc c fs).c = c ∧ (check_load cdc c fs).fs = fs ∧
    ∀ (fs' : FS β) (t' : Nat) (b' : β),
      fs'.metaFail = false → fs'.file = some (t', b') → t ≤ t' →
      FSEvent.openRead ∈ (get cdc (check_load cdc c fs).c fs').events := by
  have hc : (check_load cdc c fs).c = c := check_load_err_c cdc c fs e herr
  refine ⟨hc, check_load_fs_eq cdc c fs, ?_⟩
  intro fs' t' b' hm' hf' htt
  rw [hc]
  have hlt' : c.last_modified < t' := Nat.lt_of_lt_of_le hlt htt
  rcases hof : fs'.openFail with _ | _ <;> rcases hrf : fs'.readFail with _ | _ <;>
    rcases hl : cdc.load b' with _ | v <;>
    simp [get, check_load, hm', hf', hlt', hof, hrf, hl]

/-- C10, witness: after a failed decode of the file `(3, 42)` from a handle
at timestamp 0, the handle and filesystem are unchanged and a retry against
the same file opens it again. -/
theorem C10_load_errors_not_cached_witness :
    (check_load badCache ⟨0, 7⟩ fsWith42).c = ⟨0, 7⟩ ∧
    (check_load badCache ⟨0, 7⟩ fsWith42).fs = fsWith42 ∧
    FSEvent.openRead ∈
      (get badCache (check_load badCache ⟨0, 7⟩ fsWith42).c fsWith42).events := by
  have h := C10_load_errors_not_cached badCache ⟨0, 7⟩ fsWith42 3 42 .DecodeError
    rfl rfl (by decide) rfl
  exact ⟨h.1, h.2.1, h.2.2 fsWith42 3 42 rfl rfl (by decide)⟩

end CachedStruct
